import Mathlib

set_option maxRecDepth 4000

/-!
# Verification of the seclist PDF-index parser

A shallow embedding of `src/seclist/parser.py` (repository mjudell/seclist).
Byte strings and decoded text are both modelled as `List Nat` of code points:
every document this parser handles is ASCII, and UTF-8 decoding is the
identity on code points below 0x80, so `bytes_arr[:-1].decode('utf-8')` is
modelled by `List.dropLast` alone.

The Python exceptions are modelled by the inductive `PyErr`.  Each
constructor stands for one raise site (or runtime failure site) of the
source; the comments at the constructors give the exact correspondence.
-/

namespace Seclist

/-- Python exception outcomes of the parser, one constructor per failure
site in `parser.py`. -/
inductive PyErr where
  /-- `ValueError("More than two header pages detected")`, parser.py line 67. -/
  | structuralError : PyErr
  /-- `ValueError('Malformed page header.')`, parser.py line 130. -/
  | headerValidation : PyErr
  /-- `ValueError('Page feed should be final byte.')`, parser.py line 203. -/
  | pageFeed : PyErr
  /-- `IndexError` from an out-of-range sequence index (e.g. `bytes_arr[-1]`
  on an empty byte string, or `utf_list[3]` on a short header list). -/
  | indexError : PyErr
  /-- `AttributeError` at parser.py line 149: `re.search` returned `None`
  and `.start()` is taken on it.  The spec names this `DateExtractionError`. -/
  | dateExtraction : PyErr
  /-- `AttributeError` at parser.py line 170 (`None.start()` in
  `extract_pagenum`).  The spec names this `PageNumberExtractionError`. -/
  | pageNumExtraction : PyErr
  /-- `AttributeError` at parser.py lines 211-213 (`.span()` on `None`). -/
  | attributeError : PyErr
  /-- Failure site at parser.py line 244.  The source executes
  `raise MalformedDataError('Malformed CUSIP {:}'.format(...))`, but the name
  `MalformedDataError` is defined nowhere in the repository, so CPython in
  fact raises `NameError` at this site before the message naming the CUSIP
  is ever built.  The constructor records the site and the offending
  normalized CUSIP value that the source meant to report. -/
  | malformedCusip (cusip : List Nat) : PyErr
  /-- `ValueError` at parser.py line 271, carrying the total number of
  extracted securities and the final value of `expected_lines`
  (`none` models Python `None`). -/
  | countMismatch (total : Nat) (expected : Option Nat) : PyErr
  /-- `UnboundLocalError`: `expected_lines` at parser.py line 270 is read
  although the loop at line 266 never assigned it. -/
  | unboundLocal : PyErr
  /-- `ValueError` from `int()` applied to a string that is not a number
  (e.g. `int('')` at parser.py line 223 for a footer line without digits). -/
  | intParse : PyErr
deriving DecidableEq, Repr

/-- One parsed security entry, the dictionary built at parser.py
lines 230-239 (`SECURITY_SCHEMA`). -/
structure Security where
  cusip : List Nat
  issuer : List Nat
  description : List Nat
  date : List Nat
  page : Nat
  optionable : Bool
  added : Bool
  deleted : Bool
deriving DecidableEq, Repr

/-! ## Basic string helpers (Python `str` / `bytes` operations on ASCII) -/

/-- Code points of a Lean string literal; used to write the ASCII patterns
and concrete documents of the development. -/
def strBytes (s : String) : List Nat :=
  s.toList.map Char.toNat

/-- ASCII lowering of one code point (Python `str.lower` restricted to
ASCII, which is all the parser's patterns use). -/
def pyLowerChar (c : Nat) : Nat :=
  if 65 ≤ c ∧ c ≤ 90 then c + 32 else c

/-- Python `s.lower()`. -/
def pyLowerList (s : List Nat) : List Nat :=
  s.map pyLowerChar

/-- Python whitespace (the ASCII characters matched by `str.strip()` and by
the regex class `\s`): tab, newline, vertical tab, form feed, carriage
return, space. -/
def isPySpace (c : Nat) : Bool :=
  c == 9 || c == 10 || c == 11 || c == 12 || c == 13 || c == 32

/-- ASCII decimal digit (Python `str.isdigit` / regex `[0-9]` on ASCII). -/
def isDigit (c : Nat) : Bool :=
  48 ≤ c && c ≤ 57

/-- Regex class `[a-zA-Z0-9]`. -/
def isAlnum (c : Nat) : Bool :=
  isDigit c || (65 ≤ c && c ≤ 90) || (97 ≤ c && c ≤ 122)

/-- Python slice `s[a:b]` for non-negative bounds (clamping included). -/
def pySlice (s : List Nat) (a b : Nat) : List Nat :=
  (s.take b).drop a

/-- Python `s.strip()`: drop Python whitespace from both ends. -/
def pyStrip (s : List Nat) : List Nat :=
  ((s.dropWhile isPySpace).reverse.dropWhile isPySpace).reverse

/-- `some` last element of a list (Python `s[-1]` has no value on `[]`). -/
def lastVal {α : Type} : List α → Option α
  | [] => none
  | [x] => some x
  | _ :: y :: rest => lastVal (y :: rest)

/-- Element at index `i` (total, `Option`-valued). -/
def nth {α : Type} : List α → Nat → Option α
  | [], _ => none
  | x :: _, 0 => some x
  | _ :: rest, i + 1 => nth rest i

/-- Python sequence indexing `u[i]` for a non-negative index: `IndexError`
when out of range. -/
def pyIndex {α : Type} (u : List α) (i : Nat) : Except PyErr α :=
  match nth u i with
  | some x => .ok x
  | none => .error .indexError

/-- Python `s.split('\n')` (code point 10). -/
def splitLines : List Nat → List (List Nat)
  | [] => [[]]
  | c :: rest =>
    match splitLines rest with
    | [] => [[c]]
    | l :: ls => if c = 10 then [] :: l :: ls else (c :: l) :: ls

/-- Does `s` start with `pat` (exact codes)? -/
def listStartsWith : List Nat → List Nat → Bool
  | [], _ => true
  | _ :: _, [] => false
  | p :: ps, c :: cs => p == c && listStartsWith ps cs

/-- Does `s` start with `pat`, comparing case-insensitively?  `pat` is given
in lowercase. -/
def startsWithCI : List Nat → List Nat → Bool
  | [], _ => true
  | _ :: _, [] => false
  | p :: ps, c :: cs => p == pyLowerChar c && startsWithCI ps cs

/-- Index of the leftmost occurrence of `pat` in `s`, starting the count at
`i`.  This is `re.search` for a regex that is a literal string, and also
Python `pat in s` (via `Option.isSome`). -/
def findSubAux (pat : List Nat) : List Nat → Nat → Option Nat
  | [], i => if listStartsWith pat [] then some i else none
  | c :: rest, i =>
    if listStartsWith pat (c :: rest) then some i
    else findSubAux pat rest (i + 1)

/-- Leftmost start offset of literal `pat` inside `s`. -/
def findSub (pat s : List Nat) : Option Nat :=
  findSubAux pat s 0

/-- Python `pat in s` (substring containment). -/
def containsSub (pat s : List Nat) : Bool :=
  (findSub pat s).isSome

/-- Fuelled worker for `stripToken`; the fuel only needs to dominate the
length of the string, every step consumes at least one code point. -/
def stripTokenFuel (pat : List Nat) : Nat → List Nat → List Nat
  | 0, s => s
  | fuel + 1, s =>
    if pat ≠ [] ∧ listStartsWith pat s then
      stripTokenFuel pat fuel (s.drop pat.length)
    else
      match s with
      | [] => []
      | c :: rest => c :: stripTokenFuel pat fuel rest

/-- Python `s.replace(pat, '')` for a non-empty literal `pat`: remove the
non-overlapping occurrences of `pat`, scanning left to right. -/
def stripToken (pat s : List Nat) : List Nat :=
  stripTokenFuel pat s.length s

/-- Value of a list of ASCII digit codes read in base 10, Python
`int(...)` on a plain digit string. -/
def digitsVal (s : List Nat) : Nat :=
  s.foldl (fun a c => a * 10 + (c - 48)) 0

/-- Python `int(s)` restricted to the shapes this parser produces: a
non-empty all-digit string parses, anything else is a `ValueError`. -/
def pyInt (s : List Nat) : Except PyErr Nat :=
  if s ≠ [] ∧ s.all isDigit then .ok (digitsVal s) else .error .intParse

/-! ## The regular expressions of parser.py

Each pattern is embedded as a matcher `List Nat → Option Nat` giving the
length of the match starting at the head of its argument, if any.  All
lazy quantifiers of the source patterns (`[ ]*?`, `\s*?`, `.*?`) sit in
front of a literal that the repeated class cannot match, so the number of
repetitions is forced; the matchers compute that forced number. -/

/-- `searchFirstAux f s i`: leftmost match of matcher `f` over the suffixes
of `s`, with `i` the absolute offset of `s`; yields (start, length).  This
is `re.search`. -/
def searchFirstAux (f : List Nat → Option Nat) : List Nat → Nat → Option (Nat × Nat)
  | [], i => match f [] with | some n => some (i, n) | none => none
  | c :: rest, i =>
    match f (c :: rest) with
    | some n => some (i, n)
    | none => searchFirstAux f rest (i + 1)

/-- `re.search(pattern, s)` for the matcher `f` of the pattern. -/
def searchFirst (f : List Nat → Option Nat) (s : List Nat) : Option (Nat × Nat) :=
  searchFirstAux f s 0

/-- `[0-9]{1,2}/`: one or two digits ({1,2} is greedy, backtracking against
the literal `/`), then the slash; yields (consumed length, rest). -/
def matchNumSlash : List Nat → Option (Nat × List Nat)
  | a :: b :: c :: rest =>
    if isDigit a && isDigit b && c == 47 then some (3, rest)
    else if isDigit a && b == 47 then some (2, c :: rest)
    else none
  | [a, b] => if isDigit a && b == 47 then some (2, []) else none
  | _ => none

/-- `[0-9]{1,2}/[0-9]{1,2}/[0-9]{4,4}` anchored at the head: the numeric
date sub-pattern of `extract_date` (parser.py line 150). -/
def dateTokenAt (s : List Nat) : Option Nat :=
  match matchNumSlash s with
  | none => none
  | some (n1, r1) =>
    match matchNumSlash r1 with
    | none => none
    | some (n2, r2) =>
      match r2 with
      | a :: b :: c :: d :: _ =>
        if isDigit a && isDigit b && isDigit c && isDigit d then
          some (n1 + n2 + 4)
        else none
      | _ => none

/-- `run\s*?date:\s*?[0-9]{1,2}/[0-9]{1,2}/[0-9]{4,4}` (IGNORECASE)
anchored at the head: the full pattern of `extract_date`
(parser.py line 148). -/
def runDateTokenAt (s : List Nat) : Option Nat :=
  if startsWithCI (strBytes "run") s then
    let r1 := s.drop 3
    let w1 := (r1.takeWhile isPySpace).length
    let r2 := r1.drop w1
    if startsWithCI (strBytes "date:") r2 then
      let r3 := r2.drop 5
      let w2 := (r3.takeWhile isPySpace).length
      match dateTokenAt (r3.drop w2) with
      | some n => some (3 + w1 + 5 + w2 + n)
      | none => none
    else none
  else none

/-- `page\s*?[0-9]{1,40}` (IGNORECASE) anchored at the head: the pattern of
`extract_pagenum` (parser.py line 169). -/
def pageNumTokenAt (s : List Nat) : Option Nat :=
  if startsWithCI (strBytes "page") s then
    let r1 := s.drop 4
    let w := (r1.takeWhile isPySpace).length
    let d := min ((r1.drop w).takeWhile isDigit).length 40
    if 1 ≤ d then some (4 + w + d) else none
  else none

/-- Index of the first form-feed byte 0x0C in `s`. -/
def findIdxFeed : List Nat → Option Nat
  | [] => none
  | c :: rest => if c = 12 then some 0 else (findIdxFeed rest).map (· + 1)

/-- `run[ ]*?date.*?\x0c` (DOTALL, IGNORECASE) anchored at the head: the
page-boundary pattern of `yield_pages_as_bytes` (parser.py line 106).  The
lazy `.*?` under DOTALL runs up to the first form feed at or after the
`date` literal. -/
def sepMatchAt (s : List Nat) : Option Nat :=
  if startsWithCI (strBytes "run") s then
    let r1 := s.drop 3
    let w := (r1.takeWhile (fun c => c == 32)).length
    let r2 := r1.drop w
    if startsWithCI (strBytes "date") r2 then
      match findIdxFeed (r2.drop 4) with
      | some j => some (3 + w + 4 + j + 1)
      | none => none
    else none
  else none

/-- `^[a-zA-Z0-9]{6,6} [a-zA-Z0-9]{2,2} [a-zA-Z0-9]{1,1}$` via `re.match`
(parser.py line 241).  An unanchored `$` also matches just before one final
newline, which the second alternative for the tail mirrors. -/
def cusipMatch (s : List Nat) : Bool :=
  match s with
  | a1 :: a2 :: a3 :: a4 :: a5 :: a6 :: sp1 :: b1 :: b2 :: sp2 :: c1 :: rest =>
    isAlnum a1 && isAlnum a2 && isAlnum a3 && isAlnum a4 && isAlnum a5 &&
    isAlnum a6 && sp1 == 32 && isAlnum b1 && isAlnum b2 && sp2 == 32 &&
    isAlnum c1 && (rest == [] || rest == [10])
  | _ => false

/-! ## Page locator (parser.py lines 20-67)

`is_first_page` shells out to `pdftotext` for one page.  Its pure core,
given the captured standard output of a zero-exit run, is the value the
Python function returns: the `return stdout` at line 43 exits the function,
so the `re.search` test at line 47 is unreachable dead code (and would
itself crash, being called without a subject string).  The caller uses the
result under Python truthiness, where a byte string is true iff non-empty. -/

/-- Pure core of `is_first_page` (parser.py lines 36-45) for a successful
`pdftotext` run: the function returns the captured stdout itself. -/
def is_first_page (stdout : List Nat) : List Nat :=
  stdout

/-- Python truthiness of a byte string. -/
def pyTruthyBytes (b : List Nat) : Bool :=
  !b.isEmpty

/-- `find_first_page` (parser.py lines 50-67) over a document modelled by
the rendered text of each page; it tries pages 1, 2, 3 and raises
`ValueError("More than two header pages detected")` when all three fail
Python truthiness. -/
def find_first_page (render : Nat → List Nat) : Except PyErr Nat :=
  if pyTruthyBytes (is_first_page (render 1)) then .ok 1
  else if pyTruthyBytes (is_first_page (render 2)) then .ok 2
  else if pyTruthyBytes (is_first_page (render 3)) then .ok 3
  else .error .structuralError

/-- The header-marker test the spec (and the dead code at parser.py line 47)
describes: does `run[ ]*?date.*?\x0c` match anywhere in the rendered page? -/
def hasHeaderMarker (b : List Nat) : Bool :=
  (searchFirst sepMatchAt b).isSome

/-! ## Page segmenter (parser.py lines 96-109) -/

/-- Fuelled worker for `re.finditer` of the page-boundary pattern: at each
position try the anchored matcher; on a match emit the matched span and
resume right after it, otherwise advance one code point.  Every step
consumes at least one code point, so fuel `= length` suffices. -/
def finditerAux : Nat → List Nat → List (List Nat)
  | 0, _ => []
  | fuel + 1, s =>
    match sepMatchAt s with
    | some n => s.take n :: finditerAux fuel (s.drop n)
    | none =>
      match s with
      | [] => []
      | _ :: rest => finditerAux fuel rest

/-- `yield_pages_as_bytes` (parser.py lines 96-109) given the full rendered
text: the non-overlapping matches of `run[ ]*?date.*?\x0c`, in document
order, each one the span `pdf_text[m.start():m.end()]`. -/
def yield_pages_as_bytes (pdf_text : List Nat) : List (List Nat) :=
  finditerAux pdf_text.length pdf_text

/-! ## Header validation (parser.py lines 112-131)

One `if` over an `or`-chain; Python evaluates it left to right with
short-circuiting, and each subscript may raise `IndexError` when the list
is shorter than four lines. -/

/-- `validate_header` (parser.py lines 112-131). -/
def validate_header (utf_list : List (List Nat)) : Except PyErr Unit :=
  match pyIndex utf_list 0 with
  | .error e => .error e
  | .ok l0 =>
    if containsSub (strBytes "run date") (pyLowerList l0) then
      if containsSub (strBytes "page") (pyLowerList l0) then
        match pyIndex utf_list 1 with
        | .error e => .error e
        | .ok l1 =>
          if containsSub (strBytes "run time") (pyLowerList l1) then
            if containsSub (strBytes "year") (pyLowerList l1) then
              match pyIndex utf_list 2 with
              | .error e => .error e
              | .ok l2 =>
                if l2 = [] then
                  match pyIndex utf_list 3 with
                  | .error e => .error e
                  | .ok l3 =>
                    if containsSub (strBytes "CUSIP NO") l3 then
                      if containsSub (strBytes "ISSUER NAME") l3 then
                        if containsSub (strBytes "ISSUER DESCRIPTION") l3 then
                          if containsSub (strBytes "STATUS") l3 then .ok ()
                          else .error .headerValidation
                        else .error .headerValidation
                      else .error .headerValidation
                    else .error .headerValidation
                else .error .headerValidation
            else .error .headerValidation
          else .error .headerValidation
      else .error .headerValidation
    else .error .headerValidation

/-! ## Field extraction from line 0 (parser.py lines 134-172) -/

/-- `extract_date` (parser.py lines 134-152).  Note the source bug kept
here: the second `re.search` runs over the whole `line`, yet its span is
used to slice `date_full`; both computations are reproduced verbatim. -/
def extract_date (line : List Nat) : Except PyErr (List Nat) :=
  match searchFirst runDateTokenAt line with
  | none => .error .dateExtraction
  | some (i, n) =>
    let date_full := pySlice line i (i + n)
    match searchFirst dateTokenAt line with
    | none => .error .dateExtraction
    | some (j, m) => .ok (pySlice date_full j (j + m))

/-- `extract_pagenum` (parser.py lines 155-172): find `page\s*?[0-9]{1,40}`,
lowercase the matched span, delete the `page` literal, strip, and parse the
remaining digits. -/
def extract_pagenum (line : List Nat) : Except PyErr Nat :=
  match searchFirst pageNumTokenAt line with
  | none => .error .pageNumExtraction
  | some (i, n) =>
    pyInt (pyStrip (stripToken (strBytes "page") (pyLowerList (pySlice line i (i + n)))))

/-! ## Record extraction (parser.py lines 175-248) -/

/-- `re.search(label, line).span()[0]` for a literal label:
`AttributeError` when the label is absent. -/
def reSpanStart (pat l : List Nat) : Except PyErr Nat :=
  match findSub pat l with
  | some i => .ok i
  | none => .error .attributeError

/-- Python `int(''.flatten([s for s in line if s.isdigit()]))`
(parser.py line 223). -/
def footerCount (line : List Nat) : Except PyErr Nat :=
  pyInt (line.filter isDigit)

/-- The body of the `for` loop at parser.py lines 217-246 for one data
line: slice the three columns at the header-derived offsets, build the
security record, and validate the normalized CUSIP. -/
def parseDataLine (date : List Nat) (pagenum cusipS issuerS descrS : Nat)
    (line : List Nat) : Except PyErr Security :=
  let cusip := pySlice line cusipS issuerS
  let description := line.drop descrS
  let sec : Security := {
    cusip := pyStrip (stripToken [42] cusip)
    issuer := pyStrip (pySlice line issuerS descrS)
    description := pyStrip (stripToken (strBytes "DELETED") (stripToken (strBytes "ADDED") description))
    date := date
    page := pagenum
    optionable := containsSub [42] cusip
    added := containsSub (strBytes "ADDED") description
    deleted := containsSub (strBytes "DELETED") description }
  if cusipMatch sec.cusip then .ok sec else .error (.malformedCusip sec.cusip)

/-- The `for` loop of `parse_page` (parser.py lines 215-246): skip blank
lines, record the footer-declared total on `total count` lines, parse every
other line into a security. -/
def processLines (date : List Nat) (pagenum cusipS issuerS descrS : Nat) :
    List (List Nat) → List Security → Option Nat →
    Except PyErr (List Security × Option Nat)
  | [], securities, expected_lines => .ok (securities, expected_lines)
  | line :: rest, securities, expected_lines =>
    if pyStrip line = [] then
      processLines date pagenum cusipS issuerS descrS rest securities expected_lines
    else if containsSub (strBytes "total count") (pyLowerList line) then
      match footerCount line with
      | .error e => .error e
      | .ok n => processLines date pagenum cusipS issuerS descrS rest securities (some n)
    else
      match parseDataLine date pagenum cusipS issuerS descrS line with
      | .error e => .error e
      | .ok sec =>
        processLines date pagenum cusipS issuerS descrS rest (securities ++ [sec]) expected_lines

/-- `parse_page` after the page-feed check and decode (parser.py
lines 205-248), over the decoded lines. -/
def parsePageBody (lines : List (List Nat)) : Except PyErr (List Security × Option Nat) :=
  match validate_header (lines.take 4) with
  | .error e => .error e
  | .ok _ =>
    match pyIndex lines 0 with
    | .error e => .error e
    | .ok l0 =>
      match extract_date l0 with
      | .error e => .error e
      | .ok date =>
        match extract_pagenum l0 with
        | .error e => .error e
        | .ok pagenum =>
          match pyIndex lines 3 with
          | .error e => .error e
          | .ok l3 =>
            match reSpanStart (strBytes "CUSIP NO") l3 with
            | .error e => .error e
            | .ok cusipS =>
              match reSpanStart (strBytes "ISSUER NAME") l3 with
              | .error e => .error e
              | .ok issuerS =>
                match reSpanStart (strBytes "ISSUER DESCRIPTION") l3 with
                | .error e => .error e
                | .ok descrS =>
                  processLines date pagenum cusipS issuerS descrS (lines.drop 4) [] none

/-- `parse_page` (parser.py lines 175-248): the final byte must be the form
feed 0x0C (`bytes_arr[-1]` raises `IndexError` on an empty chunk); it is
stripped, the rest is decoded (identity on ASCII codes) and split on
newlines. -/
def parse_page (bytes_arr : List Nat) : Except PyErr (List Security × Option Nat) :=
  match lastVal bytes_arr with
  | none => .error .indexError
  | some b =>
    if b = 12 then parsePageBody (splitLines bytes_arr.dropLast)
    else .error .pageFeed

/-! ## Document aggregation (parser.py lines 251-273)

The loop rebinds `expected_lines` on every page, so the value surviving the
loop is the last page's one; when no page chunk exists the name is never
bound and line 270 raises `UnboundLocalError`.  The accumulator layer
`Option (Option Nat)` models exactly that: `none` is the unbound state,
`some v` the Python value `v`. -/

/-- The `for` loop of `parse_pdf_index` (parser.py lines 266-268). -/
def aggPages : List (List Nat) → List Security → Option (Option Nat) →
    Except PyErr (List Security × Option (Option Nat))
  | [], securities, expectedB => .ok (securities, expectedB)
  | chunk :: rest, securities, _ =>
    match parse_page chunk with
    | .error e => .error e
    | .ok (sec, expected_lines) => aggPages rest (securities ++ sec) (some expected_lines)

/-- `parse_pdf_index` (parser.py lines 251-273) over the rendered document
text (the output of `get_pdf_text_bytes`, which this embedding takes as
input since the rendering subprocess is outside the parser). -/
def parse_pdf_index (pdf_text : List Nat) : Except PyErr (List Security) :=
  match aggPages (yield_pages_as_bytes pdf_text) [] none with
  | .error e => .error e
  | .ok (_securities, none) => .error .unboundLocal
  | .ok (securities, some expected_lines) =>
    if expected_lines = some securities.length then .ok securities
    else .error (.countMismatch securities.length expected_lines)

/-- Sequential `parse_page` over a list of chunks, failing at the first
page error; used to state document-level theorems. -/
def parsePages : List (List Nat) → Except PyErr (List (List Security × Option Nat))
  | [] => .ok []
  | chunk :: rest =>
    match parse_page chunk with
    | .error e => .error e
    | .ok r =>
      match parsePages rest with
      | .error e => .error e
      | .ok rs => .ok (r :: rs)

/-! ## Concrete documents used by witnesses and counterexamples -/

/-- Header line 0 of the example pages (run date, page number). -/
def hdrLine0 : String := "Run Date: 1/2/2020                  Page 1"

/-- Header line 1 of the example pages (run time, year). -/
def hdrLine1 : String := "Run Time: 10:00                     Year 2020"

/-- Header line 3: the column-label line.  `CUSIP NO` starts at offset 0,
`ISSUER NAME` at offset 13, `ISSUER DESCRIPTION` at offset 33. -/
def colHdr : String := "CUSIP NO     ISSUER NAME         ISSUER DESCRIPTION  STATUS"

/-- A well-formed data line aligned to `colHdr`. -/
def dataLine : String := "123456 78 9  ACME CORP           WIDGET MAKER"

/-- A one-record page declaring `total count` 1, feed-terminated. -/
def page1Bytes : List Nat :=
  strBytes (hdrLine0 ++ "\n" ++ hdrLine1 ++ "\n\n" ++ colHdr ++ "\n" ++
    dataLine ++ "\n" ++ "Total Count:          1" ++ "\n\x0c")

/-- A valid page with no data lines and no footer. -/
def page2Bytes : List Nat :=
  strBytes ("Run Date: 1/2/2020                  Page 2" ++ "\n" ++ hdrLine1 ++
    "\n\n" ++ colHdr ++ "\n\x0c")

/-- The record extracted from `dataLine` on `page1Bytes`. -/
def rec1 : Security :=
  { cusip := strBytes "123456 78 9"
    issuer := strBytes "ACME CORP"
    description := strBytes "WIDGET MAKER"
    date := strBytes "1/2/2020"
    page := 1
    optionable := false
    added := false
    deleted := false }

/-- A two-page document: page 1 declares `total count` 1 and carries the
single record of the document, page 2 has no footer line. -/
def twoPageDoc : List Nat :=
  page1Bytes ++ page2Bytes

deriving instance DecidableEq for Except

/-- A page identical to `page1Bytes` except that its data line carries a
CUSIP column that fails the CUSIP pattern. -/
def badCusipPage : List Nat :=
  strBytes (hdrLine0 ++ "\n" ++ hdrLine1 ++ "\n\n" ++ colHdr ++ "\n" ++
    "BADCUSIP     ACME CORP           WIDGET MAKER" ++ "\n\x0c")

/-- A page whose column-label line is missing the `STATUS` label. -/
def badHdrPage : List Nat :=
  strBytes (hdrLine0 ++ "\n" ++ hdrLine1 ++ "\n\n" ++
    "CUSIP NO     ISSUER NAME         ISSUER DESCRIPTION" ++ "\n\x0c")

/-- A page whose line 0 contains `run date` (so the header validates) but
no `run date: D/D/YYYY` token (no colon), so date extraction fails. -/
def noColonPage : List Nat :=
  strBytes ("Run Date 1/2/2020                   Page 1" ++ "\n" ++ hdrLine1 ++
    "\n\n" ++ colHdr ++ "\n\x0c")

/-- A page whose data line's description column carries both an `ADDED` and
a `DELETED` status marker. -/
def bothFlagsPage : List Nat :=
  strBytes (hdrLine0 ++ "\n" ++ hdrLine1 ++ "\n\n" ++ colHdr ++ "\n" ++
    "123456 78 9  ACME CORP           WIDGET ADDED DELETED" ++ "\n" ++
    "Total Count:          1" ++ "\n\x0c")

/-- The record extracted from `bothFlagsPage`. -/
def recBoth : Security :=
  { cusip := strBytes "123456 78 9"
    issuer := strBytes "ACME CORP"
    description := strBytes "WIDGET"
    date := strBytes "1/2/2020"
    page := 1
    optionable := false
    added := true
    deleted := true }

/-- Rendered page texts of a document whose first page is a cover page:
page 1 renders to non-empty text without the header marker, page 2 is the
real index page, page 3 renders empty. -/
def coverDocRender : Nat → List Nat := fun i =>
  if i = 1 then strBytes "2020 COVER PAGE\n"
  else if i = 2 then page1Bytes
  else []

/-- A byte stream with no occurrence of the page-boundary pattern. -/
def noPageText : List Nat :=
  strBytes "hello"

/-! ## Supporting lemmas -/

lemma lastVal_cons_of_ne_nil {α : Type} (x : α) {t : List α} (h : t ≠ []) :
    lastVal (x :: t) = lastVal t := by
  cases t with
  | nil => exact absurd rfl h
  | cons y r => rfl

lemma lastVal_cons_some {α : Type} (y : α) (t : List α) :
    ∃ z, lastVal (y :: t) = some z := by
  induction t generalizing y with
  | nil => exact ⟨y, rfl⟩
  | cons a r ih => exact ih a

lemma nth_drop {α : Type} (a : Nat) : ∀ (l : List α) (j : Nat),
    nth (l.drop a) j = nth l (a + j) := by
  induction a with
  | zero => intro l j; simp [List.drop]
  | succ a ih =>
    intro l j
    cases l with
    | nil => simp [nth]
    | cons x r =>
      have : a + 1 + j = (a + j) + 1 := by omega
      rw [this]
      simpa [List.drop, nth] using ih r j

lemma lastVal_take {α : Type} : ∀ (l : List α) (n : Nat), 1 ≤ n → n ≤ l.length →
    lastVal (l.take n) = nth l (n - 1) := by
  intro l
  induction l with
  | nil => intro n h1 h2; simp at h2; omega
  | cons x r ih =>
    intro n h1 h2
    match n, h1 with
    | 1, _ =>
      cases r <;> simp [List.take, lastVal, nth]
    | (k + 2), _ =>
      have hr : k + 1 ≤ r.length := by simpa using h2
      have hrne : r ≠ [] := by
        cases r with
        | nil => simp at hr
        | cons y r2 => simp
      have htne : r.take (k + 1) ≠ [] := by
        cases r with
        | nil => exact absurd rfl hrne
        | cons y r2 => simp [List.take]
      calc lastVal ((x :: r).take (k + 2))
          = lastVal (x :: r.take (k + 1)) := by simp [List.take]
        _ = lastVal (r.take (k + 1)) := lastVal_cons_of_ne_nil x htne
        _ = nth r k := by simpa using ih (k + 1) (by omega) hr
        _ = nth (x :: r) (k + 2 - 1) := by simp [nth]

lemma findIdxFeed_spec : ∀ (s : List Nat) (j : Nat), findIdxFeed s = some j →
    nth s j = some 12 ∧ j < s.length := by
  intro s
  induction s with
  | nil => intro j h; simp [findIdxFeed] at h
  | cons c rest ih =>
    intro j h
    by_cases hc : c = 12
    · simp [findIdxFeed, hc] at h
      subst h
      simp [nth, hc]
    · simp [findIdxFeed, hc] at h
      obtain ⟨j2, hj2, hjeq⟩ := h
      obtain ⟨h1, h2⟩ := ih j2 hj2
      subst hjeq
      exact ⟨by simpa [nth] using h1, by simpa using h2⟩

lemma sepMatchAt_spec {s : List Nat} {n : Nat} (h : sepMatchAt s = some n) :
    1 ≤ n ∧ n ≤ s.length ∧ nth s (n - 1) = some 12 := by
  unfold sepMatchAt at h
  simp only at h
  split at h
  case isFalse => simp at h
  case isTrue =>
    split at h
    case isFalse => simp at h
    case isTrue =>
      split at h
      case h_2 => simp at h
      case h_1 j hj =>
        injection h with hn
        set w := ((s.drop 3).takeWhile (fun c => c == 32)).length with hw
        obtain ⟨hnth, hlen⟩ := findIdxFeed_spec _ _ hj
        have hdq : (((s.drop 3).drop w).drop 4) = s.drop (3 + w + 4) := by
          have harith : 3 + (w + 4) = 3 + w + 4 := by omega
          rw [List.drop_drop, List.drop_drop, harith]
        rw [hdq] at hnth hlen
        rw [nth_drop] at hnth
        rw [List.length_drop] at hlen
        refine ⟨by omega, by omega, ?_⟩
        have : n - 1 = 3 + w + 4 + j := by omega
        rw [this]
        exact hnth

lemma finditerAux_succ (f : Nat) (s : List Nat) :
    finditerAux (f + 1) s =
      match sepMatchAt s with
      | some n => s.take n :: finditerAux f (s.drop n)
      | none =>
        match s with
        | [] => []
        | _ :: rest => finditerAux f rest := rfl

lemma finditerAux_feed : ∀ (fuel : Nat) (s : List Nat) (c : List Nat),
    c ∈ finditerAux fuel s → lastVal c = some 12 := by
  intro fuel
  induction fuel with
  | zero => intro s c hc; simp [finditerAux] at hc
  | succ f ih =>
    intro s c hc
    rw [finditerAux_succ] at hc
    split at hc
    case h_1 n hm =>
      rcases List.mem_cons.mp hc with hceq | hmem
      · obtain ⟨h1, h2, h3⟩ := sepMatchAt_spec hm
        rw [hceq, lastVal_take s n h1 h2, h3]
      · exact ih _ _ hmem
    case h_2 =>
      split at hc
      · simp at hc
      · exact ih _ _ hc

lemma aggPages_eq : ∀ (chunks : List (List Nat)) (secs : List Security)
    (eB : Option (Option Nat)),
    aggPages chunks secs eB =
      match parsePages chunks with
      | .error e => .error e
      | .ok rs =>
        .ok (secs ++ (rs.map Prod.fst).flatten,
             match lastVal rs with
             | none => eB
             | some l => some l.2) := by
  intro chunks
  induction chunks with
  | nil => intro secs eB; simp [aggPages, parsePages, lastVal]
  | cons c rest ih =>
    intro secs eB
    unfold aggPages parsePages
    cases hp : parse_page c with
    | error e => simp
    | ok r =>
      obtain ⟨s1, e1⟩ := r
      dsimp only
      rw [ih (secs ++ s1) (some e1)]
      cases hr : parsePages rest with
      | error e => simp
      | ok rs =>
        cases rs with
        | nil => simp [lastVal]
        | cons r2 rs2 =>
          obtain ⟨z, hz⟩ := lastVal_cons_some r2 rs2
          simp [hz, lastVal_cons_of_ne_nil, List.append_assoc]

lemma parseDataLine_fields {date : List Nat} {pagenum cusipS issuerS descrS : Nat}
    {line : List Nat} {sec : Security}
    (h : parseDataLine date pagenum cusipS issuerS descrS line = .ok sec) :
    sec.cusip = pyStrip (stripToken [42] (pySlice line cusipS issuerS)) ∧
    sec.issuer = pyStrip (pySlice line issuerS descrS) ∧
    sec.description = pyStrip (stripToken (strBytes "DELETED")
      (stripToken (strBytes "ADDED") (line.drop descrS))) ∧
    sec.date = date ∧ sec.page = pagenum ∧
    sec.optionable = containsSub [42] (pySlice line cusipS issuerS) ∧
    sec.added = containsSub (strBytes "ADDED") (line.drop descrS) ∧
    sec.deleted = containsSub (strBytes "DELETED") (line.drop descrS) ∧
    cusipMatch sec.cusip = true := by
  unfold parseDataLine at h
  simp only at h
  split at h
  case isTrue hcm =>
    injection h with h2
    subst h2
    exact ⟨rfl, rfl, rfl, rfl, rfl, rfl, rfl, rfl, hcm⟩
  case isFalse => simp at h

lemma processLines_mem {date : List Nat} {pagenum cusipS issuerS descrS : Nat} :
    ∀ (ls : List (List Nat)) (acc : List Security) (e : Option Nat)
      (secs : List Security) (exp : Option Nat),
      processLines date pagenum cusipS issuerS descrS ls acc e = .ok (secs, exp) →
      ∀ sec ∈ secs, sec ∈ acc ∨ ∃ line ∈ ls,
        pyStrip line ≠ [] ∧
        containsSub (strBytes "total count") (pyLowerList line) = false ∧
        parseDataLine date pagenum cusipS issuerS descrS line = .ok sec := by
  intro ls
  induction ls with
  | nil =>
    intro acc e secs exp h sec hs
    simp [processLines] at h
    left
    rw [← h.1] at hs
    exact hs
  | cons line rest ih =>
    intro acc e secs exp h sec hs
    unfold processLines at h
    by_cases hblank : pyStrip line = []
    · rw [if_pos hblank] at h
      rcases ih _ _ _ _ h sec hs with hacc | ⟨l, hl, hprop⟩
      · exact Or.inl hacc
      · exact Or.inr ⟨l, List.mem_cons_of_mem _ hl, hprop⟩
    · rw [if_neg hblank] at h
      by_cases hfoot : containsSub (strBytes "total count") (pyLowerList line) = true
      · rw [if_pos hfoot] at h
        cases hn : footerCount line with
        | error e2 => rw [hn] at h; simp at h
        | ok n =>
          rw [hn] at h
          rcases ih _ _ _ _ h sec hs with hacc | ⟨l, hl, hprop⟩
          · exact Or.inl hacc
          · exact Or.inr ⟨l, List.mem_cons_of_mem _ hl, hprop⟩
      · rw [if_neg hfoot] at h
        have hfoot2 : containsSub (strBytes "total count") (pyLowerList line) = false := by
          simpa using hfoot
        cases hp : parseDataLine date pagenum cusipS issuerS descrS line with
        | error e2 => rw [hp] at h; simp at h
        | ok s1 =>
          rw [hp] at h
          rcases ih _ _ _ _ h sec hs with hacc | ⟨l, hl, hprop⟩
          · rcases List.mem_append.mp hacc with hin | hone
            · exact Or.inl hin
            · have : sec = s1 := by simpa using hone
              subst this
              exact Or.inr ⟨line, List.mem_cons_self _ _, hblank, hfoot2, hp⟩
          · exact Or.inr ⟨l, List.mem_cons_of_mem _ hl, hprop⟩

lemma parse_page_ok_parts {bs : List Nat} {secs : List Security} {exp : Option Nat}
    (h : parse_page bs = .ok (secs, exp)) :
    ∃ date pagenum l0 l3 cusipS issuerS descrS,
      pyIndex (splitLines bs.dropLast) 0 = .ok l0 ∧
      pyIndex (splitLines bs.dropLast) 3 = .ok l3 ∧
      findSub (strBytes "CUSIP NO") l3 = some cusipS ∧
      findSub (strBytes "ISSUER NAME") l3 = some issuerS ∧
      findSub (strBytes "ISSUER DESCRIPTION") l3 = some descrS ∧
      processLines date pagenum cusipS issuerS descrS
        ((splitLines bs.dropLast).drop 4) [] none = .ok (secs, exp) := by
  unfold parse_page at h
  split at h
  case h_1 => simp at h
  case h_2 b =>
    split at h
    case isFalse => simp at h
    case isTrue =>
      unfold parsePageBody at h
      split at h
      case h_1 => simp at h
      case h_2 =>
        split at h
        case h_1 => simp at h
        case h_2 l0 h0 =>
          split at h
          case h_1 => simp at h
          case h_2 date hdate =>
            split at h
            case h_1 => simp at h
            case h_2 pagenum hpn =>
              split at h
              case h_1 => simp at h
              case h_2 l3 h3 =>
                split at h
                case h_1 => simp at h
                case h_2 cusipS hcs =>
                  split at h
                  case h_1 => simp at h
                  case h_2 issuerS his =>
                    split at h
                    case h_1 => simp at h
                    case h_2 descrS hds =>
                      have hcs2 : findSub (strBytes "CUSIP NO") l3 = some cusipS := by
                        unfold reSpanStart at hcs
                        split at hcs
                        · injection hcs with hh; rename_i i hi; rw [← hh]; exact hi
                        · simp at hcs
                      have his2 : findSub (strBytes "ISSUER NAME") l3 = some issuerS := by
                        unfold reSpanStart at his
                        split at his
                        · injection his with hh; rename_i i hi; rw [← hh]; exact hi
                        · simp at his
                      have hds2 : findSub (strBytes "ISSUER DESCRIPTION") l3 = some descrS := by
                        unfold reSpanStart at hds
                        split at hds
                        · injection hds with hh; rename_i i hi; rw [← hh]; exact hi
                        · simp at hds
                      exact ⟨date, pagenum, l0, l3, cusipS, issuerS, descrS,
                        h0, h3, hcs2, his2, hds2, h⟩

/-! ## Claim theorems -/

/-- Claim C1, counterexample.  In `twoPageDoc` the two pages parse to
`([rec1], some 1)` and `([], none)`: the last non-absent declared
expected-count is 1 and exactly 1 record is extracted, so under the claim
the aggregator must not raise.  The code nevertheless raises the
count-mismatch error, comparing against the *last page's* (absent) count:
the footerless page 2 discarded page 1's declared count. -/
theorem c1_counterexample :
    parsePages (yield_pages_as_bytes twoPageDoc) = .ok [([rec1], some 1), ([], none)] ∧
    parse_pdf_index twoPageDoc = .error (.countMismatch 1 none) :=
  ⟨rfl, rfl⟩

/-- Claim C1, amended.  When every page chunk parses, `parse_pdf_index`
compares the total record count against the expected-count of the LAST
page alone (absent counts as `None`, which compares unequal to any
number): it succeeds exactly when the last page declared the total, and
otherwise raises the count-mismatch error carrying the total and that
last-page value.  A later page without a footer therefore discards a count
declared by an earlier page. -/
theorem c1_count_check_uses_last_page (txt : List Nat)
    (rs : List (List Security × Option Nat)) (lastPage : List Security × Option Nat)
    (hp : parsePages (yield_pages_as_bytes txt) = .ok rs)
    (hl : lastVal rs = some lastPage) :
    parse_pdf_index txt =
      if lastPage.2 = some ((rs.map Prod.fst).flatten).length
      then .ok ((rs.map Prod.fst).flatten)
      else .error (.countMismatch ((rs.map Prod.fst).flatten).length lastPage.2) := by
  unfold parse_pdf_index
  rw [aggPages_eq, hp]
  simp [hl]

/-- Claim C1, witness: on the single-page document `page1Bytes` the last
(only) page declares count 1 and one record is extracted, so the amended
theorem yields success with that record. -/
theorem c1_witness : parse_pdf_index page1Bytes = .ok [rec1] := by
  have h := c1_count_check_uses_last_page page1Bytes [([rec1], some 1)] ([rec1], some 1) rfl rfl
  simpa using h

/-- Claim C2 (code bug evidence).  `coverDocRender` renders page 1 to
non-empty cover text that does NOT match the header marker pattern, yet
`find_first_page` returns 1: `is_first_page` returns the raw rendered
bytes (the early `return stdout` at parser.py line 43), so any page with
non-empty text is accepted and the documented marker-pattern test at
line 47 is unreachable. -/
theorem c2_truthiness_not_marker :
    find_first_page coverDocRender = .ok 1 ∧
    hasHeaderMarker (coverDocRender 1) = false :=
  ⟨rfl, rfl⟩

/-- Claim C3 (code bug evidence).  On a page whose data line carries the
non-conforming CUSIP `BADCUSIP`, `parse_page` fails at the CUSIP-validation
site of parser.py line 244 with the offending value and produces no
records.  At that site the source names the undefined class
`MalformedDataError`, so running CPython raises a bare `NameError` there
instead of an error naming the offending CUSIP (see the doc comment of
`PyErr.malformedCusip`). -/
theorem c3_undefined_error_class_site :
    parse_page badCusipPage = .error (.malformedCusip (strBytes "BADCUSIP")) :=
  rfl

/-- Claim C4.  Every record of a successful `parse_page` comes from a
non-blank, non-footer data line of that page, its raw CUSIP being the
slice of the line from the start of `CUSIP NO` to the start of
`ISSUER NAME` in that page's own header line 3 (the stored `cusip` is that
slice with the marker stripped and whitespace trimmed), its issuer the
slice from `ISSUER NAME` to `ISSUER DESCRIPTION` whitespace-stripped, and
its description derived from the slice from `ISSUER DESCRIPTION` to the
end of the line; the offsets are the `findSub` positions in this page's
header line, hence derived fresh per page. -/
theorem c4_column_slices (bs : List Nat) (secs : List Security) (exp : Option Nat)
    (h : parse_page bs = .ok (secs, exp)) :
    ∃ l3 cusipS issuerS descrS,
      pyIndex (splitLines bs.dropLast) 3 = .ok l3 ∧
      findSub (strBytes "CUSIP NO") l3 = some cusipS ∧
      findSub (strBytes "ISSUER NAME") l3 = some issuerS ∧
      findSub (strBytes "ISSUER DESCRIPTION") l3 = some descrS ∧
      ∀ sec ∈ secs, ∃ line ∈ (splitLines bs.dropLast).drop 4,
        pyStrip line ≠ [] ∧
        containsSub (strBytes "total count") (pyLowerList line) = false ∧
        sec.cusip = pyStrip (stripToken [42] (pySlice line cusipS issuerS)) ∧
        sec.issuer = pyStrip (pySlice line issuerS descrS) ∧
        sec.description = pyStrip (stripToken (strBytes "DELETED")
          (stripToken (strBytes "ADDED") (line.drop descrS))) := by
  obtain ⟨date, pagenum, l0, l3, cusipS, issuerS, descrS, h0, h3, hcs, his, hds, hproc⟩ :=
    parse_page_ok_parts h
  refine ⟨l3, cusipS, issuerS, descrS, h3, hcs, his, hds, ?_⟩
  intro sec hs
  rcases processLines_mem _ _ _ _ _ hproc sec hs with habs | ⟨line, hline, hnb, hnf, hok⟩
  · exact absurd habs (List.not_mem_nil sec)
  · obtain ⟨f1, f2, f3, _⟩ := parseDataLine_fields hok
    exact ⟨line, hline, hnb, hnf, f1, f2, f3⟩

/-- Claim C4, witness: the theorem applied to page `page1Bytes`, which
parses to exactly `[rec1]`. -/
theorem c4_witness :
    ∃ l3 cusipS issuerS descrS,
      pyIndex (splitLines page1Bytes.dropLast) 3 = .ok l3 ∧
      findSub (strBytes "CUSIP NO") l3 = some cusipS ∧
      findSub (strBytes "ISSUER NAME") l3 = some issuerS ∧
      findSub (strBytes "ISSUER DESCRIPTION") l3 = some descrS ∧
      ∀ sec ∈ [rec1], ∃ line ∈ (splitLines page1Bytes.dropLast).drop 4,
        pyStrip line ≠ [] ∧
        containsSub (strBytes "total count") (pyLowerList line) = false ∧
        sec.cusip = pyStrip (stripToken [42] (pySlice line cusipS issuerS)) ∧
        sec.issuer = pyStrip (pySlice line issuerS descrS) ∧
        sec.description = pyStrip (stripToken (strBytes "DELETED")
          (stripToken (strBytes "ADDED") (line.drop descrS))) :=
  c4_column_slices page1Bytes [rec1] (some 1) rfl

/-- Claim C5.  First part: on exactly four header lines, `validate_header`
raises the header-validation error if and only if at least one of the nine
required conditions fails (line 0 contains `run date` and `page`
case-insensitively, line 1 contains `run time` and `year`
case-insensitively, line 2 is empty, line 3 contains the four
case-sensitive column labels).  Second part: a page whose first four lines
fail validation makes `parse_page` fail with that error, hence produces
zero records. -/
theorem c5_header_validation :
    (∀ l0 l1 l2 l3 : List Nat,
      validate_header [l0, l1, l2, l3] = .error .headerValidation ↔
        ¬(containsSub (strBytes "run date") (pyLowerList l0) = true ∧
          containsSub (strBytes "page") (pyLowerList l0) = true ∧
          containsSub (strBytes "run time") (pyLowerList l1) = true ∧
          containsSub (strBytes "year") (pyLowerList l1) = true ∧
          l2 = [] ∧
          containsSub (strBytes "CUSIP NO") l3 = true ∧
          containsSub (strBytes "ISSUER NAME") l3 = true ∧
          containsSub (strBytes "ISSUER DESCRIPTION") l3 = true ∧
          containsSub (strBytes "STATUS") l3 = true)) ∧
    (∀ bs : List Nat, lastVal bs = some 12 →
      validate_header ((splitLines bs.dropLast).take 4) = .error .headerValidation →
      parse_page bs = .error .headerValidation) := by
  constructor
  · intro l0 l1 l2 l3
    simp only [validate_header, pyIndex, nth]
    split_ifs with h1 h2 h3 h4 h5 h6 h7 h8 h9 <;> simp_all
  · intro bs hfeed hval
    simp [parse_page, hfeed, parsePageBody, hval]

/-- Claim C5, witness: `badHdrPage` lacks the `STATUS` label in its column
header, so `parse_page` rejects it with the header-validation error. -/
theorem c5_witness : parse_page badHdrPage = .error .headerValidation :=
  c5_header_validation.2 badHdrPage rfl rfl

/-- Claim C6.  For every record of a successful `parse_page`: `optionable`
is exactly the presence of the marker `*` (code 42) in the raw CUSIP
slice, `added` (resp. `deleted`) is exactly the presence of the substring
`ADDED` (resp. `DELETED`) in the raw description slice, the two flags
being computed independently from the same raw slice, and the stored
description is the raw slice with `ADDED` then `DELETED` occurrences
removed and whitespace stripped.  (The witness exhibits a record carrying
both flags at once.) -/
theorem c6_status_flags (bs : List Nat) (secs : List Security) (exp : Option Nat)
    (sec : Security) (h : parse_page bs = .ok (secs, exp)) (hmem : sec ∈ secs) :
    ∃ l3 cusipS issuerS descrS line,
      pyIndex (splitLines bs.dropLast) 3 = .ok l3 ∧
      findSub (strBytes "CUSIP NO") l3 = some cusipS ∧
      findSub (strBytes "ISSUER NAME") l3 = some issuerS ∧
      findSub (strBytes "ISSUER DESCRIPTION") l3 = some descrS ∧
      line ∈ (splitLines bs.dropLast).drop 4 ∧
      sec.optionable = containsSub [42] (pySlice line cusipS issuerS) ∧
      sec.added = containsSub (strBytes "ADDED") (line.drop descrS) ∧
      sec.deleted = containsSub (strBytes "DELETED") (line.drop descrS) ∧
      sec.description = pyStrip (stripToken (strBytes "DELETED")
        (stripToken (strBytes "ADDED") (line.drop descrS))) := by
  obtain ⟨date, pagenum, l0, l3, cusipS, issuerS, descrS, h0, h3, hcs, his, hds, hproc⟩ :=
    parse_page_ok_parts h
  rcases processLines_mem _ _ _ _ _ hproc sec hmem with habs | ⟨line, hline, hnb, hnf, hok⟩
  · exact absurd habs (List.not_mem_nil sec)
  · obtain ⟨_, _, f3, _, _, f6, f7, f8, _⟩ := parseDataLine_fields hok
    exact ⟨l3, cusipS, issuerS, descrS, line, h3, hcs, his, hds, hline, f6, f7, f8, f3⟩

/-- Claim C6, witness: the theorem applied to `bothFlagsPage`, whose only
record `recBoth` has `added` and `deleted` both true, showing the two
status booleans are independent. -/
theorem c6_witness :
    (∃ l3 cusipS issuerS descrS line,
      pyIndex (splitLines bothFlagsPage.dropLast) 3 = .ok l3 ∧
      findSub (strBytes "CUSIP NO") l3 = some cusipS ∧
      findSub (strBytes "ISSUER NAME") l3 = some issuerS ∧
      findSub (strBytes "ISSUER DESCRIPTION") l3 = some descrS ∧
      line ∈ (splitLines bothFlagsPage.dropLast).drop 4 ∧
      recBoth.optionable = containsSub [42] (pySlice line cusipS issuerS) ∧
      recBoth.added = containsSub (strBytes "ADDED") (line.drop descrS) ∧
      recBoth.deleted = containsSub (strBytes "DELETED") (line.drop descrS) ∧
      recBoth.description = pyStrip (stripToken (strBytes "DELETED")
        (stripToken (strBytes "ADDED") (line.drop descrS)))) ∧
    recBoth.added = true ∧ recBoth.deleted = true :=
  ⟨c6_status_flags bothFlagsPage [recBoth] (some 1) recBoth rfl (by simp), rfl, rfl⟩

/-- Claim C7.  `parse_page` fails on an empty chunk (`bytes_arr[-1]`
raises), fails with the page-feed error when the final byte is not 0x0C,
and otherwise strips exactly that trailing byte and processes the decoded
rest; and every chunk produced by `yield_pages_as_bytes` (a match of the
page-boundary regex, in document order) ends with the page-feed byte, so
the precondition holds for every segmenter-produced chunk. -/
theorem c7_page_feed_contract :
    parse_page [] = .error .indexError ∧
    (∀ bs b, lastVal bs = some b → b ≠ 12 → parse_page bs = .error .pageFeed) ∧
    (∀ bs, lastVal bs = some 12 →
      parse_page bs = parsePageBody (splitLines bs.dropLast)) ∧
    (∀ txt c, c ∈ yield_pages_as_bytes txt → lastVal c = some 12) := by
  refine ⟨rfl, ?_, ?_, ?_⟩
  · intro bs b h1 h2
    simp [parse_page, h1, h2]
  · intro bs h1
    simp [parse_page, h1]
  · intro txt c hc
    exact finditerAux_feed _ _ _ hc

/-- Claim C7, witness: a chunk ending in `b` (code 98) is rejected with
the page-feed error; `page1Bytes` ends with the feed byte and is processed
on its decoded lines; the first chunk the segmenter yields from
`twoPageDoc` ends with the feed byte. -/
theorem c7_witness :
    parse_page (strBytes "ab") = .error .pageFeed ∧
    parse_page page1Bytes = parsePageBody (splitLines page1Bytes.dropLast) ∧
    lastVal page1Bytes = some 12 := by
  refine ⟨c7_page_feed_contract.2.1 (strBytes "ab") 98 rfl (by decide),
    c7_page_feed_contract.2.2.1 page1Bytes rfl, ?_⟩
  have hmem : page1Bytes ∈ yield_pages_as_bytes twoPageDoc := by
    rw [show yield_pages_as_bytes twoPageDoc = [page1Bytes, page2Bytes] from rfl]
    simp
  exact c7_page_feed_contract.2.2.2 twoPageDoc page1Bytes hmem

/-- Claim C8.  On a page that passes the page-feed check and header
validation but whose line 0 contains no `run date: D/D/YYYY`-shaped token
(the search of `runDateTokenAt` over line 0 fails), `parse_page` fails
with the date-extraction error. -/
theorem c8_missing_date_token (bs l0 : List Nat)
    (hfeed : lastVal bs = some 12)
    (hval : validate_header ((splitLines bs.dropLast).take 4) = .ok ())
    (hl0 : pyIndex (splitLines bs.dropLast) 0 = .ok l0)
    (hno : searchFirst runDateTokenAt l0 = none) :
    parse_page bs = .error .dateExtraction := by
  have hed : extract_date l0 = .error .dateExtraction := by
    simp [extract_date, hno]
  simp [parse_page, hfeed, parsePageBody, hval, hl0, hed]

/-- Claim C8, witness: `noColonPage` validates (line 0 contains
`run date` and `page`) but its line 0 has no colon after `Run Date`, so no
`run date: D/D/YYYY` token exists and parsing fails with the
date-extraction error. -/
theorem c8_witness : parse_page noColonPage = .error .dateExtraction :=
  c8_missing_date_token noColonPage
    (strBytes "Run Date 1/2/2020                   Page 1") rfl rfl rfl rfl

/-- Claim C9.  The embedded parse is a pure function of the document byte
stream (matching the spec's concurrency section: no state is shared across
runs), so parsing the same bytes twice yields identical record lists, in
the same order, with identical field values. -/
theorem c9_parse_deterministic :
    ∀ pdf_text : List Nat, parse_pdf_index pdf_text = parse_pdf_index pdf_text :=
  fun _ => rfl

/-- Claim C10, counterexample.  On the chunkless byte stream `noPageText`
(`hello`, no page-boundary match) `parse_pdf_index` does fail rather than
return an empty list, but NOT with the count-mismatch error comparing 0
against an absent total: the loop never binds `expected_lines`, so Python
raises `UnboundLocalError` at the comparison before any count-mismatch
error can be built. -/
theorem c10_counterexample :
    parse_pdf_index noPageText = .error .unboundLocal ∧
    parse_pdf_index noPageText ≠ .error (.countMismatch 0 none) :=
  ⟨rfl, by decide⟩

/-- Claim C10, amended.  For every byte stream with zero page-boundary
matches, `parse_pdf_index` raises the unbound-local error (the
expected-count variable is only assigned inside the page loop), so it
never returns an empty record list; the count-mismatch comparison is never
reached. -/
theorem c10_no_pages_unbound_local (txt : List Nat)
    (h : yield_pages_as_bytes txt = []) :
    parse_pdf_index txt = .error .unboundLocal := by
  simp [parse_pdf_index, h, aggPages]

/-- Claim C10, witness: the amended theorem applied to `noPageText`. -/
theorem c10_witness : parse_pdf_index noPageText = .error .unboundLocal :=
  c10_no_pages_unbound_local noPageText rfl

end Seclist
